import Mathlib

/-
Verification of the siem-lite detection engine, alert lifecycle and
aggregation layer against its specification.

The detector (src/siem_lite/domain/rules.py) is embedded as pure functions
over lists of log records; timestamps are modelled as integers counting
seconds, so Python's `(t1 - t0).total_seconds()` becomes integer
subtraction.  Python's stable `list.sort(key=lambda l: l["timestamp"])` is
modelled by `List.insertionSort` on the timestamp order, which is likewise
stable.  A log dict is modelled as a record: a missing `"ip"` key and an
empty string are both falsy in the `if not ip: continue` guard and are
modelled as the empty string; `l.get("status_code", 200)` is modelled by a
`status_code` field whose absent value is 200; `l.get("log_type")` by a
`log_type` field whose absent value is the empty string.
-/

namespace SiemLite

/-- One normalized log record, as consumed by the rules in
src/siem_lite/domain/rules.py.  Mirrors the dict keys used there:
`log_type`, `ip`, `timestamp`, `status_code`. -/
structure Log where
  log_type : String
  ip : String
  timestamp : Int
  status_code : Int := 200
deriving DecidableEq

/-- One detection event, mirroring the dict
`{"ip": ip, "start": t0, "end": t1, "count": len(window)}` appended by
both rules.  The `end` key is named `end_` because `end` is a Lean
keyword. -/
structure Event where
  ip : String
  start : Int
  end_ : Int
  count : Nat
deriving DecidableEq

/-- Stable sort by ascending timestamp: model of
`logs.sort(key=lambda l: l["timestamp"])` (Python's sort is stable, as is
insertion sort with a non-strict comparison). -/
def sortLogs (xs : List Log) : List Log :=
  xs.insertionSort (fun a b => a.timestamp ≤ b.timestamp)

/-- The Python slice `logs[max(0, i - threshold + 1) : i + 1]`.  With
natural-number truncated subtraction, `i + 1 - t` equals
`max(0, i - t + 1)`. -/
def pySlice (xs : List Log) (t i : Nat) : List Log :=
  (xs.drop (i + 1 - t)).take (i + 1 - (i + 1 - t))

/-- Time span between the first and the last element of a window
(`window[-1]["timestamp"] - window[0]["timestamp"]`); 0 on the empty
list. -/
def sliceSpan : List Log → Int
  | [] => 0
  | x :: r => (((x :: r).getLastD x).timestamp) - x.timestamp

/-- The window comprehension of rules.py: the elements of the trailing
slice that match the rule's per-window predicate `q` for the current
source ip. -/
def theWindow (q : Log → String → Bool) (slice : List Log) (ip : String) : List Log :=
  slice.filter (fun l => q l ip)

/-- Loop body shared by both rules, applied to the trailing slice and the
current log `lg`: skip when `ip` is falsy, build the window, and emit one
event when `len(window) >= threshold` and the window spans at most `w`
seconds.  (When `threshold = 0` and the window is empty the Python code
would raise an IndexError on `window[0]`; that branch emits nothing
here and is outside every claim, all of which use a positive
threshold.) -/
def windowCheck (q : Log → String → Bool) (slice : List Log) (w : Int) (t : Nat)
    (lg : Log) : List Event :=
  if lg.ip = "" then []
  else if t ≤ (theWindow q slice lg.ip).length then
    match theWindow q slice lg.ip with
    | [] => []
    | w0 :: rest =>
      if (((w0 :: rest).getLastD w0).timestamp) - w0.timestamp ≤ w then
        [⟨lg.ip, w0.timestamp, ((w0 :: rest).getLastD w0).timestamp, (w0 :: rest).length⟩]
      else []
  else []

/-- The loop body at index `i` of the sorted, type-filtered batch:
`for i, log in enumerate(logs)` reads the log at index `i` and examines
the trailing slice ending at `i`. -/
def stepAt (q : Log → String → Bool) (xs : List Log) (w : Int) (t : Nat)
    (i : Nat) : List Event :=
  match xs.drop i with
  | [] => []
  | lg :: _ => windowCheck q (pySlice xs t i) w t lg

/-- The whole detection loop: events appended over all indices of the
sorted, type-filtered batch, in index order. -/
def detections (q : Log → String → Bool) (xs : List Log) (w : Int) (t : Nat) :
    List Event :=
  (List.range xs.length).flatMap (stepAt q xs w t)

/-- Type filter of the SSH rule: `l.get("log_type") == "sshd"`. -/
def sshKeep (l : Log) : Bool := decide (l.log_type = "sshd")

/-- Type filter of the web rule: `l.get("log_type") == "nginx"`. -/
def nginxKeep (l : Log) : Bool := decide (l.log_type = "nginx")

/-- Per-window predicate of the SSH rule: `l["ip"] == ip`. -/
def qualifySsh (l : Log) (ip : String) : Bool := decide (l.ip = ip)

/-- Per-window predicate of the web rule:
`l["ip"] == ip and l.get("status_code", 200) >= 400`. -/
def qualifyWeb (l : Log) (ip : String) : Bool :=
  decide (l.ip = ip) && decide (400 ≤ l.status_code)

/-- The sorted sshd-only batch the SSH rule loops over. -/
def sshSorted (logs : List Log) : List Log := sortLogs (logs.filter sshKeep)

/-- The sorted nginx-only batch the web rule loops over. -/
def webSorted (logs : List Log) : List Log := sortLogs (logs.filter nginxKeep)

/-- `analyze_ssh_bruteforce` as a run returning the events together with
the caller's batch as it stands after the call: the list comprehension
`logs = [l for l in logs if ...]` rebinds the local name to a fresh list
and the sort mutates only that fresh list, so the caller's list is
returned unchanged. -/
def analyze_ssh_bruteforce_run (logs : List Log) (w : Int) (t : Nat) :
    List Event × List Log :=
  (detections qualifySsh (sshSorted logs) w t, logs)

/-- src/siem_lite/domain/rules.py `analyze_ssh_bruteforce`
(window_seconds `w`, threshold `t`). -/
def analyze_ssh_bruteforce (logs : List Log) (w : Int) (t : Nat) : List Event :=
  (analyze_ssh_bruteforce_run logs w t).1

/-- `analyze_web_attacks` as a run, as for the SSH rule. -/
def analyze_web_attacks_run (logs : List Log) (w : Int) (t : Nat) :
    List Event × List Log :=
  (detections qualifyWeb (webSorted logs) w t, logs)

/-- src/siem_lite/domain/rules.py `analyze_web_attacks`
(window_seconds `w`, threshold `t`). -/
def analyze_web_attacks (logs : List Log) (w : Int) (t : Nat) : List Event :=
  (analyze_web_attacks_run logs w t).1

/-
Alert entity and service layer (src/siem_lite/domain/entities.py and
src/siem_lite/domain/services.py).  Instants are modelled as integers;
`datetime.now()` becomes an explicit `now : Int` argument.  The metadata
dict maps string keys to string values (`isoformat()` stamps are modelled
by `toString now`); assignment replaces an existing key in place or
appends a new one at the end, as Python dict assignment does.  The
service operations are modelled as their effect on the alert fetched from
the repository: each `xxx_alert(alert_id, ...)` first looks the alert up
and returns early when it is absent, so the functions below are the
update applied to a present alert.
-/

/-- src/siem_lite/domain/entities.py `AlertSeverity`. -/
inductive AlertSeverity where
  | LOW
  | MEDIUM
  | HIGH
  | CRITICAL
deriving DecidableEq

/-- src/siem_lite/domain/entities.py `AlertStatus`. -/
inductive AlertStatus where
  | OPEN
  | ACKNOWLEDGED
  | RESOLVED
  | FALSE_POSITIVE
deriving DecidableEq

/-- src/siem_lite/domain/entities.py `Alert` dataclass, with the defaults
of the dataclass fields. -/
structure Alert where
  id : Option Nat := none
  alert_type : String
  source_ip : String
  details : String
  timestamp : Int
  severity : AlertSeverity := AlertSeverity.MEDIUM
  status : AlertStatus := AlertStatus.OPEN
  assigned_to : Option String := none
  resolved_at : Option Int := none
  metadata : List (String × String) := []
  updated_at : Option Int := none
deriving DecidableEq

/-- Python dict assignment `m[k] = v`: replace the value of an existing
key in place, else append the new pair at the end. -/
def setMeta (m : List (String × String)) (k v : String) : List (String × String) :=
  if m.any (fun p => decide (p.1 = k)) then
    m.map (fun p => if p.1 = k then (k, v) else p)
  else
    m ++ [(k, v)]

/-- Python truthiness of `self.assigned_to` in `if not self.assigned_to:`
(both `None` and the empty string are falsy). -/
def assignedUnset (a : Alert) : Bool :=
  match a.assigned_to with
  | none => true
  | some s => decide (s = "")

/-- src/siem_lite/domain/entities.py `Alert.acknowledge`. -/
def Alert.acknowledge (a : Alert) (analyst : String) : Alert :=
  { a with status := AlertStatus.ACKNOWLEDGED, assigned_to := some analyst }

/-- src/siem_lite/domain/entities.py `Alert.resolve`: sets the status,
stamps `resolved_at = now`, and assigns the analyst only when
`assigned_to` was unset. -/
def Alert.resolve (a : Alert) (analyst : String) (now : Int) : Alert :=
  let a := { a with status := AlertStatus.RESOLVED, resolved_at := some now }
  if assignedUnset a then { a with assigned_to := some analyst } else a

/-- src/siem_lite/domain/entities.py `Alert.mark_false_positive`. -/
def Alert.mark_false_positive (a : Alert) (analyst : String) (now : Int) : Alert :=
  let a := { a with status := AlertStatus.FALSE_POSITIVE, resolved_at := some now }
  if assignedUnset a then { a with assigned_to := some analyst } else a

/-- src/siem_lite/domain/services.py `AlertService.acknowledge_alert`,
lines 80-92, applied to the fetched alert: sets the status, stamps the
metadata, updates `updated_at`. -/
def acknowledge_alert (a : Alert) (analyst : String) (now : Int) : Alert :=
  let a := { a with status := AlertStatus.ACKNOWLEDGED }
  let a := { a with metadata := setMeta a.metadata ("acknowledged_by") analyst }
  let a := { a with metadata := setMeta a.metadata ("acknowledged_at") (toString now) }
  { a with updated_at := some now }

/-- src/siem_lite/domain/services.py `AlertService.resolve_alert`, lines
94-106, applied to the fetched alert: sets the status and stamps the
metadata and `updated_at` - it touches neither `resolved_at` nor
`assigned_to`. -/
def resolve_alert (a : Alert) (analyst : String) (now : Int) : Alert :=
  let a := { a with status := AlertStatus.RESOLVED }
  let a := { a with metadata := setMeta a.metadata ("resolved_by") analyst }
  let a := { a with metadata := setMeta a.metadata ("resolved_at") (toString now) }
  { a with updated_at := some now }

/-- The update patch consumed by `AlertService.update_alert`
(api/schemas.py `AlertUpdate`); absent fields are `none`.  The schema
validates enum values, so `status`/`severity` are carried as enums. -/
structure AlertUpdate where
  status : Option AlertStatus := none
  severity : Option AlertSeverity := none
  details : Option String := none
  metadata : Option (List (String × String)) := none
deriving DecidableEq

/-- `if update_data.status: alert.status = AlertStatus(update_data.status)`
(services.py line 68-69). -/
def updStatus (u : AlertUpdate) (a : Alert) : Alert :=
  match u.status with
  | some s => { a with status := s }
  | none => a

/-- `if update_data.severity: ...` (services.py line 70-71). -/
def updSeverity (u : AlertUpdate) (a : Alert) : Alert :=
  match u.severity with
  | some s => { a with severity := s }
  | none => a

/-- `if update_data.details: alert.details = update_data.details`
(services.py line 72-73); an empty string is falsy and is skipped. -/
def updDetails (u : AlertUpdate) (a : Alert) : Alert :=
  match u.details with
  | some d => if d = "" then a else { a with details := d }
  | none => a

/-- `if update_data.metadata: alert.metadata.update(update_data.metadata)`
(services.py line 74-75); an empty dict is falsy and is skipped, and
`dict.update` merges key by key. -/
def updMetadata (u : AlertUpdate) (a : Alert) : Alert :=
  match u.metadata with
  | some m =>
    if m = [] then a
    else { a with metadata := m.foldl (fun acc kv => setMeta acc kv.1 kv.2) a.metadata }
  | none => a

/-- src/siem_lite/domain/services.py `AlertService.update_alert`, lines
61-78, applied to the fetched alert. -/
def update_alert (a : Alert) (u : AlertUpdate) (now : Int) : Alert :=
  { updMetadata u (updDetails u (updSeverity u (updStatus u a))) with updated_at := some now }

/-- One public service operation on a stored alert, for reasoning about
reachable states. -/
inductive ServiceOp where
  | ack (analyst : String) (now : Int)
  | res (analyst : String) (now : Int)
  | upd (u : AlertUpdate) (now : Int)
deriving DecidableEq

/-- Apply one service operation to the stored alert. -/
def applyOp (a : Alert) : ServiceOp → Alert
  | ServiceOp.ack analyst now => acknowledge_alert a analyst now
  | ServiceOp.res analyst now => resolve_alert a analyst now
  | ServiceOp.upd u now => update_alert a u now

/-- The data-model invariant of spec section 3: `resolved_at` is non-null
iff the status is terminal. -/
def resolvedAtIffTerminal (a : Alert) : Prop :=
  a.resolved_at ≠ none ↔
    (a.status = AlertStatus.RESOLVED ∨ a.status = AlertStatus.FALSE_POSITIVE)

instance (a : Alert) : Decidable (resolvedAtIffTerminal a) := by
  unfold resolvedAtIffTerminal
  infer_instance

/-- api/schemas.py `AlertFilter`; absent fields are `none`. -/
structure AlertFilter where
  severity : Option AlertSeverity := none
  status : Option AlertStatus := none
  source_ip : Option String := none
  alert_type : Option String := none
  start_date : Option Int := none
  end_date : Option Int := none
deriving DecidableEq

/-- `if filters.severity: ...` (services.py line 26-27). -/
def filterSeverity (o : Option AlertSeverity) (l : List Alert) : List Alert :=
  match o with
  | some sev => l.filter (fun a => decide (a.severity = sev))
  | none => l

/-- `if filters.status: ...` (services.py line 28-29). -/
def filterStatus (o : Option AlertStatus) (l : List Alert) : List Alert :=
  match o with
  | some st => l.filter (fun a => decide (a.status = st))
  | none => l

/-- `if filters.source_ip: ...` (services.py line 30-31); the empty
string is falsy, so it is skipped like `None`. -/
def filterSourceIp (o : Option String) (l : List Alert) : List Alert :=
  match o with
  | some s => if s = "" then l else l.filter (fun a => decide (a.source_ip = s))
  | none => l

/-- `if filters.alert_type: ...` (services.py line 32-33); the empty
string is falsy, so it is skipped like `None`. -/
def filterAlertType (o : Option String) (l : List Alert) : List Alert :=
  match o with
  | some s => if s = "" then l else l.filter (fun a => decide (a.alert_type = s))
  | none => l

/-- `if filters.start_date: ...` (services.py line 34-35). -/
def filterStartDate (o : Option Int) (l : List Alert) : List Alert :=
  match o with
  | some d => l.filter (fun a => decide (d ≤ a.timestamp))
  | none => l

/-- `if filters.end_date: ...` (services.py line 36-37). -/
def filterEndDate (o : Option Int) (l : List Alert) : List Alert :=
  match o with
  | some d => l.filter (fun a => decide (a.timestamp ≤ d))
  | none => l

/-- The filtering chain of `list_alerts_paginated`, in source order. -/
def applyFilters (f : AlertFilter) (l : List Alert) : List Alert :=
  filterEndDate f.end_date (filterStartDate f.start_date (filterAlertType f.alert_type
    (filterSourceIp f.source_ip (filterStatus f.status (filterSeverity f.severity l)))))

/-- src/siem_lite/domain/services.py `AlertService.list_alerts_paginated`,
lines 19-43: filter the full store contents, then return the page
`filtered[skip : skip + limit]` together with the pre-pagination count. -/
def list_alerts_paginated (alerts : List Alert) (skip limit : Nat)
    (filters : Option AlertFilter) : List Alert × Nat :=
  let filtered := match filters with
    | some f => applyFilters f alerts
    | none => alerts
  ((filtered.drop skip).take limit, filtered.length)

/-- A single-pass restatement of the filter configuration: an alert is a
candidate iff it satisfies every present filter field (a present but
empty string field is falsy in the source and so counts as absent). -/
def matchesFilters (filters : Option AlertFilter) (a : Alert) : Bool :=
  match filters with
  | none => true
  | some f =>
    (match f.severity with | some sev => decide (a.severity = sev) | none => true) &&
    (match f.status with | some st => decide (a.status = st) | none => true) &&
    (match f.source_ip with
      | some s => decide (s = "") || decide (a.source_ip = s)
      | none => true) &&
    (match f.alert_type with
      | some s => decide (s = "") || decide (a.alert_type = s)
      | none => true) &&
    (match f.start_date with | some d => decide (d ≤ a.timestamp) | none => true) &&
    (match f.end_date with | some d => decide (a.timestamp ≤ d) | none => true)

/-- The last-24-hours membership test of
`AlertService.get_alert_statistics` (services.py line 138):
`(now - a.timestamp).days < 1`, where `timedelta.days` floors the
difference to whole days. -/
def stats_recent_pred (now : Int) (a : Alert) : Bool :=
  decide ((now - a.timestamp).fdiv 86400 < 1)

/-- `recent_alerts = [a for a in alerts if (now - a.timestamp).days < 1]`
(services.py lines 136-138). -/
def recent_alerts_24h (now : Int) (alerts : List Alert) : List Alert :=
  alerts.filter (stats_recent_pred now)

/-- The last-24-hours membership test of `get_trends`
(api/stats.py lines 50-55): `a.timestamp >= now - timedelta(days=1)`. -/
def trends_24h_pred (now : Int) (a : Alert) : Bool :=
  decide (now - 86400 ≤ a.timestamp)

/-- `last_24h_alerts = [a for a in alerts if a.timestamp >= yesterday]`
(api/stats.py lines 54-55). -/
def trends_last_24h (now : Int) (alerts : List Alert) : List Alert :=
  alerts.filter (trends_24h_pred now)

/-
Concrete instances used by counterexamples and witnesses.
-/

def cSsh1 : List Log := [⟨"sshd", "A", 0, 200⟩]

def cSpread : List Log :=
  [⟨"nginx", "A", 0, 500⟩, ⟨"nginx", "A", 70, 500⟩, ⟨"nginx", "A", 140, 500⟩]

def cSshPair : List Log := [⟨"sshd", "A", 0, 200⟩, ⟨"sshd", "A", 30, 200⟩]

def cInterleaved : List Log :=
  [⟨"sshd", "A", 0, 200⟩, ⟨"sshd", "B", 1, 200⟩, ⟨"sshd", "A", 2, 200⟩]

def cWebFull : List Log :=
  [⟨"nginx", "A", 0, 500⟩, ⟨"nginx", "A", 1, 200⟩, ⟨"nginx", "A", 2, 500⟩]

def cWebErrorsOnly : List Log := [⟨"nginx", "A", 0, 500⟩, ⟨"nginx", "A", 2, 500⟩]

def cAlert : Alert := { alert_type := "t", source_ip := "1.1.1.1", details := "d", timestamp := 0 }

def cResolved : Alert :=
  { cAlert with status := AlertStatus.RESOLVED, resolved_at := some 3 }

/-
Lemmas and claim theorems.
-/


lemma length_pySlice_le (xs : List Log) (t i : Nat) : (pySlice xs t i).length ≤ t := by
  unfold pySlice
  simp only [List.length_take, List.length_drop]
  omega

lemma length_pySlice_le_succ (xs : List Log) (t i : Nat) :
    (pySlice xs t i).length ≤ i + 1 := by
  unfold pySlice
  have h := List.length_take (i + 1 - (i + 1 - t)) (xs.drop (i + 1 - t))
  omega

lemma pySlice_sublist (xs : List Log) (t i : Nat) : (pySlice xs t i).Sublist xs :=
  (List.take_sublist _ _).trans (List.drop_sublist _ _)

lemma sliceSpan_cons (w0 : Log) (rest : List Log) :
    sliceSpan (w0 :: rest) = (((w0 :: rest).getLastD w0).timestamp) - w0.timestamp := rfl

/-- Inversion of the loop body: every emitted event certifies that the
whole trailing slice qualified. -/
lemma mem_windowCheck_inv {q : Log → String → Bool} {slice : List Log} {w : Int}
    {t : Nat} {lg : Log} {e : Event} (hs : slice.length ≤ t)
    (he : e ∈ windowCheck q slice w t lg) :
    lg.ip ≠ "" ∧ e.ip = lg.ip ∧ theWindow q slice lg.ip = slice ∧
      e.count = slice.length ∧ t ≤ e.count ∧
      sliceSpan slice = e.end_ - e.start ∧ e.end_ - e.start ≤ w := by
  unfold windowCheck at he
  by_cases hip : lg.ip = ""
  · rw [if_pos hip] at he
    simp at he
  · rw [if_neg hip] at he
    by_cases hlen : t ≤ (theWindow q slice lg.ip).length
    · rw [if_pos hlen] at he
      have hwineq : theWindow q slice lg.ip = slice := by
        have hsub : (theWindow q slice lg.ip).Sublist slice := List.filter_sublist slice
        exact hsub.eq_of_length_le (le_trans hs hlen)
      rcases hwm : theWindow q slice lg.ip with _ | ⟨w0, rest⟩
      · rw [hwm] at he
        simp at he
      · rw [hwm] at he
        dsimp only at he
        by_cases hsp : (((w0 :: rest).getLastD w0).timestamp) - w0.timestamp ≤ w
        · rw [if_pos hsp] at he
          have heq : e = ⟨lg.ip, w0.timestamp, ((w0 :: rest).getLastD w0).timestamp,
              (w0 :: rest).length⟩ := List.mem_singleton.mp he
          subst heq
          have hws : w0 :: rest = slice := by rw [← hwm]; exact hwineq
          refine ⟨hip, rfl, hws, ?_, ?_, ?_, hsp⟩
          · rw [← hws]
          · rw [hwm] at hlen
            exact hlen
          · rw [← hws, sliceSpan_cons]
        · rw [if_neg hsp] at he
          simp at he
    · rw [if_neg hlen] at he
      simp at he

lemma stepAt_eq_windowCheck {xs : List Log} {i : Nat} {lg : Log} {tail : List Log}
    (hd : xs.drop i = lg :: tail) (q : Log → String → Bool) (w : Int) (t : Nat) :
    stepAt q xs w t i = windowCheck q (pySlice xs t i) w t lg := by
  unfold stepAt
  rw [hd]

lemma lt_length_of_drop_cons {xs : List Log} {i : Nat} {lg : Log} {tail : List Log}
    (hd : xs.drop i = lg :: tail) : i < xs.length := by
  by_contra hc
  push_neg at hc
  rw [List.drop_eq_nil_of_le hc] at hd
  simp at hd

/-- Inversion of the whole detection loop. -/
lemma mem_detections_inv {q : Log → String → Bool} {xs : List Log} {w : Int}
    {t : Nat} {e : Event} (he : e ∈ detections q xs w t) :
    ∃ i lg tail, i < xs.length ∧ xs.drop i = lg :: tail ∧ lg.ip ≠ "" ∧
      e.ip = lg.ip ∧ theWindow q (pySlice xs t i) lg.ip = pySlice xs t i ∧
      e.count = (pySlice xs t i).length ∧ t ≤ e.count ∧
      sliceSpan (pySlice xs t i) = e.end_ - e.start ∧ e.end_ - e.start ≤ w := by
  unfold detections at he
  rcases List.mem_flatMap.mp he with ⟨i, hi, hmem⟩
  rcases hd : xs.drop i with _ | ⟨lg, tail⟩
  · rw [stepAt, hd] at hmem
    simp at hmem
  · rw [stepAt_eq_windowCheck hd] at hmem
    rcases mem_windowCheck_inv (length_pySlice_le xs t i) hmem with
      ⟨h1, h2, h3, h4, h5, h6, h7⟩
    exact ⟨i, lg, tail, List.mem_range.mp hi, hd, h1, h2, h3, h4, h5, h6, h7⟩


/-- Completeness of the loop body: when the whole trailing slice has
exactly threshold length, qualifies for the current ip, and spans at most
`w`, an event is emitted. -/
lemma windowCheck_emits {q : Log → String → Bool} {slice : List Log} {w : Int}
    {t : Nat} {lg : Log} (hip : lg.ip ≠ "") (hall : theWindow q slice lg.ip = slice)
    (hlen : slice.length = t) (ht : 1 ≤ t) (hspan : sliceSpan slice ≤ w) :
    ∃ e, e ∈ windowCheck q slice w t lg ∧ e.ip = lg.ip ∧ e.count = t := by
  unfold windowCheck
  rw [if_neg hip, hall]
  rcases slice with _ | ⟨w0, rest⟩
  · simp at hlen
    omega
  · have hle : t ≤ (w0 :: rest).length := by omega
    rw [if_pos hle]
    dsimp only
    rw [sliceSpan_cons] at hspan
    rw [if_pos hspan]
    exact ⟨_, List.mem_singleton.mpr rfl, rfl, hlen⟩

/-- Completeness of the loop: the event emitted at a qualifying index is
in the output. -/
lemma detections_emit {q : Log → String → Bool} {xs : List Log} {w : Int}
    {t : Nat} {i : Nat} {lg : Log} {tail : List Log} (hd : xs.drop i = lg :: tail)
    (hip : lg.ip ≠ "") (hall : theWindow q (pySlice xs t i) lg.ip = pySlice xs t i)
    (hlen : (pySlice xs t i).length = t) (ht : 1 ≤ t)
    (hspan : sliceSpan (pySlice xs t i) ≤ w) :
    ∃ e, e ∈ detections q xs w t ∧ e.ip = lg.ip ∧ e.count = t := by
  rcases windowCheck_emits hip hall hlen ht hspan with ⟨e, hmem, hipq, hcnt⟩
  refine ⟨e, ?_, hipq, hcnt⟩
  unfold detections
  refine List.mem_flatMap.mpr ⟨i, List.mem_range.mpr (lt_length_of_drop_cons hd), ?_⟩
  rw [stepAt_eq_windowCheck hd]
  exact hmem

/-- The loop emits nothing when fewer than `t` events satisfy a predicate
implied by the per-window predicate. -/
lemma detections_eq_nil_of_countP {q : Log → String → Bool} {xs : List Log}
    {w : Int} {t : Nat} (p : Log → Bool) (hq : ∀ l ip, q l ip = true → p l = true)
    (hc : xs.countP p < t) : detections q xs w t = [] := by
  rw [List.eq_nil_iff_forall_not_mem]
  intro e he
  rcases mem_detections_inv he with ⟨i, lg, tail, hi, hd, hip, hipq, hall, hcnt, hle, hsp, hspw⟩
  have hslice : ∀ l ∈ pySlice xs t i, p l = true := by
    intro l hl
    have hql : q l lg.ip = true := by
      have := List.filter_eq_self.mp hall
      exact this l hl
    exact hq l lg.ip hql
  have h1 : (pySlice xs t i).countP p = (pySlice xs t i).length :=
    List.countP_eq_length.mpr hslice
  have h2 : (pySlice xs t i).countP p ≤ xs.countP p :=
    (pySlice_sublist xs t i).countP_le p
  omega

/-- The loop emits nothing when every trailing slice of full threshold
length spans more than `w` seconds. -/
lemma detections_eq_nil_of_span {q : Log → String → Bool} {xs : List Log}
    {w : Int} {t : Nat}
    (hsp : ∀ i, i < xs.length → t ≤ i + 1 → w < sliceSpan (pySlice xs t i)) :
    detections q xs w t = [] := by
  rw [List.eq_nil_iff_forall_not_mem]
  intro e he
  rcases mem_detections_inv he with ⟨i, lg, tail, hi, hd, hip, hipq, hall, hcnt, hle, hspan, hspw⟩
  have h1 : t ≤ i + 1 := by
    have := length_pySlice_le_succ xs t i
    omega
  have h2 := hsp i hi h1
  omega


lemma length_sshSorted (logs : List Log) :
    (sshSorted logs).length = logs.countP sshKeep := by
  unfold sshSorted sortLogs
  rw [(List.perm_insertionSort _ _).length_eq, ← List.countP_eq_length_filter]

lemma length_webSorted (logs : List Log) :
    (webSorted logs).length = logs.countP nginxKeep := by
  unfold webSorted sortLogs
  rw [(List.perm_insertionSort _ _).length_eq, ← List.countP_eq_length_filter]

lemma countP_webSorted (logs : List Log) (p : Log → Bool) :
    (webSorted logs).countP p = logs.countP (fun l => p l && nginxKeep l) := by
  unfold webSorted sortLogs
  rw [(List.perm_insertionSort _ _).countP_eq, List.countP_eq_length_filter,
    List.filter_filter, ← List.countP_eq_length_filter]

/-- C8: every emitted DetectionEvent has `match_count ≥ threshold` and a
window spanning at most `window_seconds`; a batch with fewer than
`threshold` qualifying events (in particular an empty batch) emits
nothing; and when every trailing slice of full threshold length spans
more than `window_seconds`, nothing is emitted even if the raw count
meets the threshold. -/
theorem detection_bounds (logs : List Log) (w : Int) (t : Nat) :
    (∀ e ∈ analyze_ssh_bruteforce logs w t, t ≤ e.count ∧ e.end_ - e.start ≤ w)
  ∧ (∀ e ∈ analyze_web_attacks logs w t, t ≤ e.count ∧ e.end_ - e.start ≤ w)
  ∧ (logs.countP sshKeep < t → analyze_ssh_bruteforce logs w t = [])
  ∧ (logs.countP (fun l => nginxKeep l && decide (400 ≤ l.status_code)) < t →
      analyze_web_attacks logs w t = [])
  ∧ ((∀ i, i < (sshSorted logs).length → t ≤ i + 1 →
        w < sliceSpan (pySlice (sshSorted logs) t i)) →
      analyze_ssh_bruteforce logs w t = [])
  ∧ ((∀ i, i < (webSorted logs).length → t ≤ i + 1 →
        w < sliceSpan (pySlice (webSorted logs) t i)) →
      analyze_web_attacks logs w t = []) := by
  refine ⟨?_, ?_, ?_, ?_, ?_, ?_⟩
  · intro e he
    rcases mem_detections_inv he with ⟨i, lg, tail, hi, hd, hip, hipq, hall, hcnt, hle, hsp, hspw⟩
    exact ⟨hle, hspw⟩
  · intro e he
    rcases mem_detections_inv he with ⟨i, lg, tail, hi, hd, hip, hipq, hall, hcnt, hle, hsp, hspw⟩
    exact ⟨hle, hspw⟩
  · intro hc
    apply detections_eq_nil_of_countP (fun _ => true) (fun _ _ _ => rfl)
    have h1 : (sshSorted logs).countP (fun _ => true) = (sshSorted logs).length :=
      congrFun List.countP_true (sshSorted logs)
    rw [h1, length_sshSorted]
    exact hc
  · intro hc
    apply detections_eq_nil_of_countP (fun l => decide (400 ≤ l.status_code))
    · intro l ip h
      unfold qualifyWeb at h
      exact (Bool.and_eq_true _ _ |>.mp h).2
    · rw [countP_webSorted]
      have hco : (fun l => decide (400 ≤ l.status_code) && nginxKeep l)
          = (fun l => nginxKeep l && decide (400 ≤ l.status_code)) :=
        funext fun l => Bool.and_comm _ _
      rw [hco]
      exact hc
  · intro hsp
    exact detections_eq_nil_of_span hsp
  · intro hsp
    exact detections_eq_nil_of_span hsp



/-- Witness for `detection_bounds`: a single sshd event is below a
threshold of 2, and three nginx errors spread 70 seconds apart never fit
a 60-second window. -/
theorem detection_bounds_witness :
    analyze_ssh_bruteforce cSsh1 0 2 = [] ∧ analyze_web_attacks cSpread 60 2 = [] :=
  ⟨(detection_bounds cSsh1 0 2).2.2.1 (by decide),
    (detection_bounds cSpread 60 2).2.2.2.2.2 (by decide)⟩

/-- C10: every emitted DetectionEvent reports `match_count` exactly equal
to the rule's threshold, never more: the candidate window is drawn from a
slice of at most `threshold` events. -/
theorem match_count_eq_threshold (logs : List Log) (w : Int) (t : Nat) :
    (∀ e ∈ analyze_ssh_bruteforce logs w t, e.count = t) ∧
    (∀ e ∈ analyze_web_attacks logs w t, e.count = t) := by
  constructor
  · intro e he
    rcases mem_detections_inv he with ⟨i, lg, tail, hi, hd, hip, hipq, hall, hcnt, hle, hsp, hspw⟩
    have h1 := length_pySlice_le (sshSorted logs) t i
    omega
  · intro e he
    rcases mem_detections_inv he with ⟨i, lg, tail, hi, hd, hip, hipq, hall, hcnt, hle, hsp, hspw⟩
    have h1 := length_pySlice_le (webSorted logs) t i
    omega


/-- Witness for `match_count_eq_threshold`: an actually emitted event,
with its count equal to the threshold 2. -/
theorem match_count_eq_threshold_witness :
    (⟨"A", 0, 30, 2⟩ : Event) ∈ analyze_ssh_bruteforce cSshPair 60 2 ∧
    (⟨"A", 0, 30, 2⟩ : Event).count = 2 :=
  ⟨by decide, (match_count_eq_threshold cSshPair 60 2).1 _ (by decide)⟩

/-- C9: the detector is deterministic and does not mutate the input
batch: both rules are pure functions of the batch and the configuration,
and each run returns the caller's batch unchanged (the source rebinds the
local name to a fresh filtered list before sorting it). -/
theorem detector_deterministic (logs : List Log) (w : Int) (t : Nat) :
    analyze_ssh_bruteforce_run logs w t = analyze_ssh_bruteforce_run logs w t ∧
    (analyze_ssh_bruteforce_run logs w t).2 = logs ∧
    analyze_web_attacks_run logs w t = analyze_web_attacks_run logs w t ∧
    (analyze_web_attacks_run logs w t).2 = logs :=
  ⟨rfl, rfl, rfl, rfl⟩



/-- C1 counterexample: the two most recent qualifying events from source
ip A (timestamps 0 and 2) span 2 ≤ 60 seconds, yet the run with an
interleaved event from source ip B emits nothing: the trailing window is
a slice of the whole sshd batch, not of the qualifying events of A
alone. -/
theorem ssh_window_interleaving_counterexample :
    analyze_ssh_bruteforce cInterleaved 60 2 = [] ∧
    ((sshSorted cInterleaved).filter (fun l => decide (l.ip = "A"))).length = 2 ∧
    sliceSpan ((sshSorted cInterleaved).filter (fun l => decide (l.ip = "A"))) ≤ 60 := by
  decide

/-- C1 (amended): the decision at index `i` is taken over the ip-matching
events inside the slice of the last `threshold` events of the sorted
type-filtered batch ending at `i` (slice first, then filter by ip), so
interleaved events from other source ips can suppress a detection; a
DetectionEvent with `match_count = threshold` is guaranteed whenever that
whole slice has threshold length, carries the current event's source ip
throughout, and spans at most `window_seconds`. -/
theorem ssh_contiguous_window_emission (logs : List Log) (w : Int) (t i : Nat)
    (lg : Log) (tail : List Log) (hd : (sshSorted logs).drop i = lg :: tail)
    (hip : lg.ip ≠ "")
    (hall : ∀ l ∈ pySlice (sshSorted logs) t i, l.ip = lg.ip)
    (hlen : (pySlice (sshSorted logs) t i).length = t) (ht : 1 ≤ t)
    (hspan : sliceSpan (pySlice (sshSorted logs) t i) ≤ w) :
    ∃ e, e ∈ analyze_ssh_bruteforce logs w t ∧ e.ip = lg.ip ∧ e.count = t := by
  apply detections_emit hd hip ?_ hlen ht hspan
  apply List.filter_eq_self.mpr
  intro l hl
  unfold qualifySsh
  exact decide_eq_true (hall l hl)

/-- Witness for `ssh_contiguous_window_emission`: two events from ip A,
30 seconds apart, threshold 2, emit an event at the second index. -/
theorem ssh_contiguous_window_emission_witness :
    ∃ e, e ∈ analyze_ssh_bruteforce cSshPair 60 2 ∧
      e.ip = (⟨"sshd", "A", 30, 200⟩ : Log).ip ∧ e.count = 2 :=
  ssh_contiguous_window_emission cSshPair 60 2 1 ⟨"sshd", "A", 30, 200⟩ []
    (by decide) (by decide) (by decide) (by decide) (by decide) (by decide)



/-- C5 counterexample: removing the HTTP events with status < 400 changes
the web rule's output - with the status-200 event interleaved nothing is
emitted, without it an event is emitted - because only the `log_type`
filter runs before windowing, while the status test runs inside the
trailing slice. -/
theorem web_status_prefilter_counterexample :
    cWebErrorsOnly = cWebFull.filter (fun l => decide (400 ≤ l.status_code)) ∧
    analyze_web_attacks cWebFull 60 2 = [] ∧
    analyze_web_attacks cWebErrorsOnly 60 2 ≠ [] := by
  decide

/-- C5 (amended): the web rule pre-filters the batch only by
`log_type == "nginx"` before sorting and windowing - removing non-nginx
events leaves its output unchanged - while the `status ≥ 400` predicate
is applied inside each trailing slice, so nginx events with status < 400
occupy window positions and can suppress detections. -/
theorem web_prefilter_nginx_only (logs : List Log) (w : Int) (t : Nat) :
    analyze_web_attacks (logs.filter nginxKeep) w t = analyze_web_attacks logs w t := by
  unfold analyze_web_attacks analyze_web_attacks_run webSorted
  rw [List.filter_filter]
  have hco : (fun a => nginxKeep a && nginxKeep a) = nginxKeep :=
    funext fun a => Bool.and_self _
  rw [hco]



lemma filterSeverity_eq (o : Option AlertSeverity) (l : List Alert) :
    filterSeverity o l =
      l.filter (fun a => match o with | some sev => decide (a.severity = sev) | none => true) := by
  cases o <;> simp [filterSeverity]

lemma filterStatus_eq (o : Option AlertStatus) (l : List Alert) :
    filterStatus o l =
      l.filter (fun a => match o with | some st => decide (a.status = st) | none => true) := by
  cases o <;> simp [filterStatus]

lemma filterSourceIp_eq (o : Option String) (l : List Alert) :
    filterSourceIp o l =
      l.filter (fun a => match o with
        | some s => decide (s = "") || decide (a.source_ip = s)
        | none => true) := by
  cases o with
  | none => simp [filterSourceIp]
  | some s =>
    by_cases hs : s = "" <;> simp [filterSourceIp, hs]

lemma filterAlertType_eq (o : Option String) (l : List Alert) :
    filterAlertType o l =
      l.filter (fun a => match o with
        | some s => decide (s = "") || decide (a.alert_type = s)
        | none => true) := by
  cases o with
  | none => simp [filterAlertType]
  | some s =>
    by_cases hs : s = "" <;> simp [filterAlertType, hs]

lemma filterStartDate_eq (o : Option Int) (l : List Alert) :
    filterStartDate o l =
      l.filter (fun a => match o with | some d => decide (d ≤ a.timestamp) | none => true) := by
  cases o <;> simp [filterStartDate]

lemma filterEndDate_eq (o : Option Int) (l : List Alert) :
    filterEndDate o l =
      l.filter (fun a => match o with | some d => decide (a.timestamp ≤ d) | none => true) := by
  cases o <;> simp [filterEndDate]

lemma bool_and_reorder (b1 b2 b3 b4 b5 b6 : Bool) :
    (b6 && b5 && b4 && b3 && b2 && b1) = (b1 && b2 && b3 && b4 && b5 && b6) := by
  cases b1 <;> cases b2 <;> cases b3 <;> cases b4 <;> cases b5 <;> cases b6 <;> rfl

lemma applyFilters_eq (f : AlertFilter) (l : List Alert) :
    applyFilters f l = l.filter (matchesFilters (some f)) := by
  unfold applyFilters
  rw [filterSeverity_eq, filterStatus_eq, filterSourceIp_eq, filterAlertType_eq,
    filterStartDate_eq, filterEndDate_eq, List.filter_filter, List.filter_filter,
    List.filter_filter, List.filter_filter, List.filter_filter]
  apply List.filter_congr
  intro a _
  dsimp only [matchesFilters]
  exact bool_and_reorder _ _ _ _ _ _

/-- C6: `list_alerts_paginated` returns the pre-pagination count of the
alerts satisfying all present filter fields together with exactly the
slice `candidates[skip : skip + limit]`; on 25 matching alerts, skip 0
and limit 10 give 10 items with total 25, and skip 20 gives 5 items. -/
theorem list_alerts_paginated_spec :
    (∀ (alerts : List Alert) (skip limit : Nat) (filters : Option AlertFilter),
      list_alerts_paginated alerts skip limit filters =
        (((alerts.filter (matchesFilters filters)).drop skip).take limit,
          (alerts.filter (matchesFilters filters)).length)) ∧
    (list_alerts_paginated (List.replicate 25 cAlert) 0 10 none).1.length = 10 ∧
    (list_alerts_paginated (List.replicate 25 cAlert) 0 10 none).2 = 25 ∧
    (list_alerts_paginated (List.replicate 25 cAlert) 20 10 none).1.length = 5 := by
  refine ⟨?_, by decide, by decide, by decide⟩
  intro alerts skip limit filters
  cases filters with
  | none =>
    have h : alerts.filter (matchesFilters none) = alerts :=
      List.filter_eq_self.mpr (fun a _ => rfl)
    simp [list_alerts_paginated, h]
  | some f => simp [list_alerts_paginated, applyFilters_eq]


/-- C7 counterexample: an alert exactly 24 hours old lies on the window
boundary (`now - timestamp ≤ 24h` holds), yet the statistics computation
excludes it from the last-24-hours list, while the trends computation
includes it. -/
theorem stats_24h_boundary_counterexample :
    (86400 : Int) - cAlert.timestamp ≤ 86400 ∧
    recent_alerts_24h 86400 [cAlert] = [] ∧
    trends_last_24h 86400 [cAlert] = [cAlert] := by
  decide

/-- C7 (amended): the trends endpoint includes the boundary tie
(its test is equivalent to `now - timestamp ≤ 24h`), but the statistics
computation tests `(now - timestamp).days < 1`, which is
`now - timestamp < 24h`: the exact 24-hour tie is excluded there. -/
theorem recent_window_predicates (now : Int) (a : Alert) :
    (stats_recent_pred now a = true ↔ now - a.timestamp < 86400) ∧
    (trends_24h_pred now a = true ↔ now - a.timestamp ≤ 86400) := by
  constructor
  · unfold stats_recent_pred
    rw [decide_eq_true_eq, Int.fdiv_eq_ediv _ (by norm_num)]
    omega
  · unfold trends_24h_pred
    rw [decide_eq_true_eq]
    omega

/-- C2: evaluation of the two resolve implementations at a concrete open
alert.  The service operation `resolve_alert` - the one reachable from
the resolve endpoint - sets the status but leaves `resolved_at` and
`assigned_to` untouched, while the entity method `Alert.resolve` (which
nothing in the repository calls) implements exactly the specified
behaviour. -/
theorem resolve_alert_drops_resolution_fields :
    (resolve_alert cAlert ("alice") 7).status = AlertStatus.RESOLVED ∧
    (resolve_alert cAlert ("alice") 7).resolved_at = none ∧
    (resolve_alert cAlert ("alice") 7).assigned_to = none ∧
    (Alert.resolve cAlert ("alice") 7).status = AlertStatus.RESOLVED ∧
    (Alert.resolve cAlert ("alice") 7).resolved_at = some 7 ∧
    (Alert.resolve cAlert ("alice") 7).assigned_to = some ("alice") := by
  decide


/-- C3 counterexample: acknowledging a RESOLVED (terminal) alert moves
its status back to ACKNOWLEDGED - a transition out of a terminal
state. -/
theorem acknowledge_escapes_terminal :
    cResolved.status = AlertStatus.RESOLVED ∧
    (acknowledge_alert cResolved ("bob") 9).status = AlertStatus.ACKNOWLEDGED ∧
    AlertStatus.ACKNOWLEDGED ≠ AlertStatus.RESOLVED := by
  decide

/-- C3 (amended): the lifecycle operations are accepted in every state
and overwrite the status unconditionally - acknowledge always yields
ACKNOWLEDGED, resolve always yields RESOLVED, and update with a status
patch yields that status - so transitions out of terminal states do
occur; no guard restricts them. -/
theorem lifecycle_status_overwrite (a : Alert) (analyst : String) (now : Int)
    (s : AlertStatus) :
    (acknowledge_alert a analyst now).status = AlertStatus.ACKNOWLEDGED ∧
    (resolve_alert a analyst now).status = AlertStatus.RESOLVED ∧
    (update_alert a { status := some s } now).status = s := by
  refine ⟨rfl, rfl, ?_⟩
  unfold update_alert updMetadata updDetails updSeverity updStatus
  rfl

lemma updStatus_resolved_at (u : AlertUpdate) (a : Alert) :
    (updStatus u a).resolved_at = a.resolved_at := by
  unfold updStatus
  cases u.status <;> rfl

lemma updSeverity_resolved_at (u : AlertUpdate) (a : Alert) :
    (updSeverity u a).resolved_at = a.resolved_at := by
  unfold updSeverity
  cases u.severity <;> rfl

lemma updDetails_resolved_at (u : AlertUpdate) (a : Alert) :
    (updDetails u a).resolved_at = a.resolved_at := by
  unfold updDetails
  cases u.details with
  | none => rfl
  | some d => by_cases hd : d = "" <;> simp [hd]

lemma updMetadata_resolved_at (u : AlertUpdate) (a : Alert) :
    (updMetadata u a).resolved_at = a.resolved_at := by
  unfold updMetadata
  cases u.metadata with
  | none => rfl
  | some m => by_cases hm : m = [] <;> simp [hm]

lemma update_alert_resolved_at (a : Alert) (u : AlertUpdate) (now : Int) :
    (update_alert a u now).resolved_at = a.resolved_at := by
  unfold update_alert
  show (updMetadata u (updDetails u (updSeverity u (updStatus u a)))).resolved_at
      = a.resolved_at
  rw [updMetadata_resolved_at, updDetails_resolved_at, updSeverity_resolved_at,
    updStatus_resolved_at]

lemma applyOp_resolved_at (a : Alert) (op : ServiceOp) :
    (applyOp a op).resolved_at = a.resolved_at := by
  cases op with
  | ack analyst now => rfl
  | res analyst now => rfl
  | upd u now => exact update_alert_resolved_at a u now

lemma foldl_applyOp_resolved_at (ops : List ServiceOp) (a : Alert) :
    (ops.foldl applyOp a).resolved_at = a.resolved_at := by
  induction ops generalizing a with
  | nil => rfl
  | cons op ops ih => rw [List.foldl_cons, ih, applyOp_resolved_at]

/-- C4 counterexample: resolving a freshly created open alert through the
service yields status RESOLVED with `resolved_at` still null, violating
the invariant that `resolved_at` is non-null iff the status is
terminal. -/
theorem resolve_breaks_resolved_at_invariant :
    ¬ resolvedAtIffTerminal (resolve_alert cAlert ("alice") 5) := by
  decide

/-- C4 (amended): no service operation ever writes `resolved_at`, so for
every alert stored with `resolved_at` unset, `resolved_at` stays null
through every sequence of service operations; in particular ending the
sequence with resolve leaves the alert in status RESOLVED with
`resolved_at` null, refuting the claimed equivalence (only the unused
entity methods `Alert.resolve` and `Alert.mark_false_positive` set
`resolved_at`). -/
theorem resolved_at_null_through_service_ops (a : Alert) (ops : List ServiceOp)
    (analyst : String) (now : Int) (h : a.resolved_at = none) :
    ((ops ++ [ServiceOp.res analyst now]).foldl applyOp a).resolved_at = none ∧
    ((ops ++ [ServiceOp.res analyst now]).foldl applyOp a).status = AlertStatus.RESOLVED := by
  constructor
  · rw [foldl_applyOp_resolved_at, h]
  · rw [List.foldl_append]
    rfl

/-- Witness for `resolved_at_null_through_service_ops` at a concrete open
alert and the empty preceding history. -/
theorem resolved_at_null_through_service_ops_witness :
    ((([] : List ServiceOp) ++ [ServiceOp.res ("alice") 5]).foldl applyOp cAlert).resolved_at
        = none ∧
    ((([] : List ServiceOp) ++ [ServiceOp.res ("alice") 5]).foldl applyOp cAlert).status
        = AlertStatus.RESOLVED :=
  resolved_at_null_through_service_ops cAlert [] ("alice") 5 rfl

end SiemLite
